import Mathlib

/-!
Verification of the Verilog-analyzer pipeline (src/verilog_analyzer.py and
src/verilog_mcp_server.py) against its natural-language specification.

Strings are embedded as `List Char`.  The external collaborators that the
specification declares out of scope — the generative-model service, the
configuration loader, and file-system enumeration — are modelled as explicit
oracles passed to each operation: `fs` maps a path to its readable contents,
`dirs` maps a directory to its enumerated matching file paths, and `llm` maps
a prompt to either a response text or a failure reason (`Except`).
-/

/-- Python `\s` on the ASCII range: space, tab, newline, carriage return,
vertical tab, form feed. -/
def pyIsSpace (c : Char) : Bool :=
  c = ' ' || c = '\t' || c = '\n' || c = '\r' || c = '\x0b' || c = '\x0c'

/-- Python `\w` on the ASCII range: letters, digits and underscore. -/
def pyIsWord (c : Char) : Bool :=
  c.isAlpha || c.isDigit || c = '_'

/-- Character class `[\d:\s]` used by the bit-range part of the port regexes. -/
def pyIsRangeChar (c : Char) : Bool :=
  c.isDigit || c = ':' || pyIsSpace c

/-- Character class `[^,\)]` used by the parameter-value capture. -/
def pyIsParamValueChar (c : Char) : Bool :=
  !(c = ',' || c = ')')

/-- Match a literal at the front of the text, returning the remainder. -/
def matchLit (lit cs : List Char) : Option (List Char) :=
  if lit.isPrefixOf cs then some (List.drop lit.length cs) else none

/-- Match one-or-more characters satisfying `p` (greedy `+`), returning the
matched run and the remainder.  All `+`/`*` pieces of the regexes in the
source are followed by a character outside their own class, so greedy
maximal munch is exact. -/
def takeWhile1 (p : Char → Bool) (cs : List Char) : Option (List Char × List Char) :=
  match cs.takeWhile p with
  | [] => none
  | t => some (t, cs.drop t.length)

/-- The trailing `(\w+)` capture of the port regexes. -/
def matchIdent (cs : List Char) : Option (List Char × List Char) :=
  takeWhile1 pyIsWord cs

/-- The `(?:\[[\d:\s]+\]\s+)?(\w+)`: optionally a bracketed bit range followed by
whitespace, then the captured identifier; on failure of the optional group the
engine backtracks to matching the identifier directly. -/
def matchRangeThenIdent (cs : List Char) : Option (List Char × List Char) :=
  (Option.bind (matchLit (("[").toList) cs) (fun r1 =>
   Option.bind (takeWhile1 pyIsRangeChar r1) (fun p1 =>
   Option.bind (matchLit (("]").toList) p1.2) (fun r2 =>
   Option.bind (takeWhile1 pyIsSpace r2) (fun p2 =>
   matchIdent p2.2))))).orElse (fun _ => matchIdent cs)

/-- The `(?:wire\s+|reg\s+)?` then `matchRangeThenIdent`: the optional
storage-class keyword, with regex backtracking order (`wire` first, then
`reg`, then the empty alternative). -/
def matchAfterKw (cs : List Char) : Option (List Char × List Char) :=
  (Option.bind (matchLit (("wire").toList) cs) (fun r =>
   Option.bind (takeWhile1 pyIsSpace r) (fun p =>
   matchRangeThenIdent p.2))).orElse (fun _ =>
  (Option.bind (matchLit (("reg").toList) cs) (fun r =>
   Option.bind (takeWhile1 pyIsSpace r) (fun p =>
   matchRangeThenIdent p.2))).orElse (fun _ =>
   matchRangeThenIdent cs))

/-- Attempt the full port pattern `kw\s+(?:wire\s+|reg\s+)?(?:\[[\d:\s]+\]\s+)?(\w+)`
at the current position; returns the captured identifier and the text after
the match end. -/
def matchPortAt (kw cs : List Char) : Option (List Char × List Char) :=
  Option.bind (matchLit kw cs) (fun r =>
  Option.bind (takeWhile1 pyIsSpace r) (fun p =>
  matchAfterKw p.2))

/-- The `re.findall` scanning for the port pattern: try every position left to
right, and continue after the end of each (non-overlapping) match.  `fuel`
bounds the recursion; it is instantiated with the text length, which bounds
the number of scanning steps. -/
def findallPorts (kw : List Char) : Nat → List Char → List (List Char)
  | 0, _ => []
  | _ + 1, [] => []
  | fuel + 1, c :: cs =>
    match matchPortAt kw (c :: cs) with
    | some (cap, rest) => cap :: findallPorts kw fuel rest
    | none => findallPorts kw fuel cs

/-- Attempt `parameter\s+(\w+)\s*=\s*([^,\)]+)` at the current position;
returns the (name, raw value) captures and the text after the match. -/
def matchParamAt (cs : List Char) : Option ((List Char × List Char) × List Char) :=
  Option.bind (matchLit (("parameter").toList) cs) (fun r =>
  Option.bind (takeWhile1 pyIsSpace r) (fun p1 =>
  Option.bind (matchIdent p1.2) (fun pn =>
  Option.bind (matchLit (("=").toList) ((pn.2).dropWhile pyIsSpace)) (fun r2 =>
  Option.bind (takeWhile1 pyIsParamValueChar (r2.dropWhile pyIsSpace)) (fun pv =>
  some ((pn.1, pv.1), pv.2))))))

/-- The `re.findall` scanning for the parameter pattern. -/
def findallParams : Nat → List Char → List (List Char × List Char)
  | 0, _ => []
  | _ + 1, [] => []
  | fuel + 1, c :: cs =>
    match matchParamAt (c :: cs) with
    | some (cap, rest) => cap :: findallParams fuel rest
    | none => findallParams fuel cs

/-- The ports structure returned by `VerilogAnalyzer._extract_ports`:
`{'inputs': [...], 'outputs': [...], 'parameters': [...]}`. -/
structure Ports where
  inputs : List (List Char)
  outputs : List (List Char)
  parameters : List (List Char × List Char)

/-- The `VerilogAnalyzer._extract_ports`: three independent `re.findall` scans
over the unmodified text. -/
def extract_ports (code : List Char) : Ports :=
  { inputs := findallPorts (("input").toList) code.length code
    outputs := findallPorts (("output").toList) code.length code
    parameters := findallParams code.length code }

/-- The `re.search(r'module\s+(\w+)', code)`: first match of the module-keyword
pattern, returning the captured identifier. -/
def searchModuleAux : Nat → List Char → Option (List Char)
  | 0, _ => none
  | _ + 1, [] => none
  | fuel + 1, c :: cs =>
    match Option.bind (matchLit (("module").toList) (c :: cs)) (fun r =>
          Option.bind (takeWhile1 pyIsSpace r) (fun p => matchIdent p.2)) with
    | some p => some p.1
    | none => searchModuleAux fuel cs

/-- First match of `module\s+(\w+)` anywhere in the text. -/
def searchModule (code : List Char) : Option (List Char) :=
  searchModuleAux code.length code

/-- Python `str.find`: index of the first occurrence of the needle, `none`
standing for the source's `-1`. -/
def strFind (nd : List Char) : List Char → Option Nat
  | [] => if nd.isPrefixOf [] then some 0 else none
  | c :: t =>
    if nd.isPrefixOf (c :: t) then some 0
    else (strFind nd t).map (fun i => i + 1)

/-- The template's literal begin-body marker. -/
def beginDocMarker : List Char := ("\\begin\x7bdocument\x7d").toList

/-- The template's literal end-body marker. -/
def endDocMarker : List Char := ("\\end\x7bdocument\x7d").toList

/-- The `VerilogAnalyzer._replace_entire_document_content`: locate the first
occurrence of each marker; if either is absent, return the template
unchanged; otherwise keep the template up to and including the begin marker,
insert the new content between blank-line separators, and append from the
end marker onward. -/
def replace_entire_document_content (template_content new_content : List Char) : List Char :=
  match strFind beginDocMarker template_content, strFind endDocMarker template_content with
  | some b, some e =>
      List.take (b + beginDocMarker.length) template_content
        ++ ("\n\n").toList ++ new_content ++ ("\n\n").toList
        ++ List.drop e template_content
  | _, _ => template_content

/-- The in-memory record for one Verilog module (dataclass `VerilogModule`). -/
structure VerilogModule where
  name : List Char
  filename : List Char
  code : List Char
  ports : Ports
  description : List Char
  analysis : List Char

/-- The `os.path.basename` on POSIX: the path component after the last slash. -/
def basename (p : List Char) : List Char :=
  ((p.reverse.takeWhile (fun c => !(c = '/'))).reverse)

/-- The `VerilogAnalyzer._parse_verilog_file` on one path: read the file through
the filesystem oracle (a per-file read failure is caught and skips the file),
search for the first `module\s+(\w+)` match (no match skips the file), and
otherwise append a record with the captured name, the base name, the full
text, the extracted ports and an empty analysis. -/
def parse_verilog_file (fs : List Char → Option (List Char))
    (modules : List VerilogModule) (path : List Char) : List VerilogModule :=
  match fs path with
  | none => modules
  | some code =>
    match searchModule code with
    | none => modules
    | some nm =>
        modules ++ [{ name := nm
                      filename := basename path
                      code := code
                      ports := extract_ports code
                      description := []
                      analysis := [] }]

/-- The `VerilogAnalyzer.load_verilog_files`: parse each enumerated file in
order, appending the records to the module collection.  The `glob`-based
enumeration itself is the out-of-scope filesystem collaborator; `paths` is
its result. -/
def load_verilog_files (fs : List Char → Option (List Char))
    (paths : List (List Char)) (modules : List VerilogModule) : List VerilogModule :=
  paths.foldl (fun ms p => parse_verilog_file fs ms p) modules

/-- The configuration values the pipeline reads (the YAML loader and the
service credentials are out-of-scope collaborators; the generation
parameters travel inside the opaque model oracle). -/
structure Config where
  latexFilename : List Char
  includeSections : List (List Char)
  maxSectionLength : Nat

/-- Python `str.title()` on the ASCII range: uppercase a letter that follows
a non-letter, lowercase a letter that follows a letter. -/
def pyTitleAux : Bool → List Char → List Char
  | _, [] => []
  | prev, c :: cs =>
    (if c.isAlpha then (if prev then c.toLower else c.toUpper) else c) :: pyTitleAux c.isAlpha cs

/-- The `section.replace('_', ' ').title()` as used for section headings. -/
def sectionTitle (s : List Char) : List Char :=
  pyTitleAux false (s.map (fun c => if c = '_' then ' ' else c))

/-- The seven canonical section descriptions (`section_descriptions`). -/
def section_descriptions : List (List Char × List Char) :=
  [ (("functionality_overview").toList, ("High-level description of what this module does").toList)
  , (("module_interface").toList, ("Detailed description of inputs, outputs, and parameters").toList)
  , (("behavioral_description").toList, ("How the module behaves and its internal logic").toList)
  , (("timing_analysis").toList, ("Clock domains, timing constraints, and synchronization").toList)
  , (("design_patterns").toList, ("Design patterns and coding practices used").toList)
  , (("potential_improvements").toList, ("Suggestions for optimization or enhancement").toList)
  , (("test_considerations").toList, ("Testing strategies and verification considerations").toList) ]

/-- Decimal rendering of a natural number, for the f-string interpolations. -/
def natText (n : Nat) : List Char := (Nat.repr n).toList

/-- The `VerilogAnalyzer._create_analysis_prompt`: the per-module analysis
prompt; unrecognized section names are silently dropped by the loop. -/
def create_analysis_prompt (cfg : Config) (m : VerilogModule) : List Char :=
  ("\n        Analyze the following Verilog module and provide a comprehensive technical analysis suitable for a specification document.\n\n        Module Name: ").toList
  ++ m.name
  ++ ("\n        File: ").toList ++ m.filename
  ++ ("\n\n        Verilog Code:\n        ```verilog\n        ").toList
  ++ m.code
  ++ ("\n        ```\n\n        Please provide analysis covering these sections (keep each section under ").toList
  ++ natText cfg.maxSectionLength
  ++ (" words):\n        ").toList
  ++ cfg.includeSections.foldl (fun acc s =>
       match section_descriptions.lookup s with
       | some d => acc ++ ("\n- ").toList ++ sectionTitle s ++ (": ").toList ++ d
       | none => acc) []
  ++ ("\n\n        Format your response as clear, technical prose suitable for inclusion in an professional specification document. \n        Use proper technical terminology and maintain a professional tone throughout.\n        Focus on the design intent, functionality, and implementation details. Do not include any other text or comments. Do not output in markdown format.\n        ").toList

/-- Python `str.strip()` restricted to ASCII whitespace. -/
def pyStrip (s : List Char) : List Char :=
  ((s.dropWhile pyIsSpace).reverse.dropWhile pyIsSpace).reverse

/-- The `VerilogAnalyzer._analyze_single_module`: send the analysis prompt to
the model oracle; a successful response is stripped, any service failure is
caught and converted into the textual placeholder. -/
def analyze_single_module (cfg : Config)
    (llm : List Char → Except (List Char) (List Char)) (m : VerilogModule) : List Char :=
  match llm (create_analysis_prompt cfg m) with
  | Except.ok r => pyStrip r
  | Except.error e =>
      ("Analysis failed for module ").toList ++ m.name ++ (": ").toList ++ e

/-- The `VerilogAnalyzer.analyze_modules`: analyze every loaded module in order,
storing each result in the record. -/
def analyze_modules (cfg : Config)
    (llm : List Char → Except (List Char) (List Char))
    (modules : List VerilogModule) : List VerilogModule :=
  modules.map (fun m => { m with analysis := analyze_single_module cfg llm m })

/-- The `', '.join(xs)` with the literal `None` for an empty list. -/
def fmtStrList (xs : List (List Char)) : List Char :=
  if xs.isEmpty then ("None").toList
  else (List.intercalate ((", ").toList) xs)

/-- The `', '.join(f"{p[0]}={p[1]}" ...)` with the literal `None` for an empty list. -/
def fmtParams (ps : List (List Char × List Char)) : List Char :=
  if ps.isEmpty then ("None").toList
  else (List.intercalate ((", ").toList) (ps.map (fun p => p.1 ++ ("=").toList ++ p.2)))

/-- The `VerilogAnalyzer._format_modules_for_prompt`: one block per module,
joined with newlines. -/
def format_modules_for_prompt (modules : List VerilogModule) : List Char :=
  List.intercalate (("\n").toList) (modules.map (fun m =>
    ("\nMODULE: ").toList ++ m.name ++ (" (File: ").toList ++ m.filename
    ++ (")\nCODE:\n```verilog\n").toList ++ m.code
    ++ ("\n```\n\nANALYSIS:\n").toList ++ m.analysis
    ++ ("\n\nINTERFACE:\n- Inputs: ").toList ++ fmtStrList m.ports.inputs
    ++ ("\n- Outputs: ").toList ++ fmtStrList m.ports.outputs
    ++ ("\n- Parameters: ").toList ++ fmtParams m.ports.parameters
    ++ ("\n").toList))

/-- The whole-document generation prompt built in
`VerilogAnalyzer._generate_complete_document`. -/
def document_prompt (modules : List VerilogModule) : List Char :=
  ("\n        Create a comprehensive digital design specification document for the following Verilog modules. \n        You have complete freedom to create appropriate headings and structure the document as you see fit.\n        \n        MODULES TO ANALYZE:\n        ").toList
  ++ format_modules_for_prompt modules
  ++ ("\n        \n        FORMATTING REQUIREMENTS:\n        - Use LaTeX formatting (\\section\x7b\x7d, \\subsection\x7b\x7d, etc.)\n        - Do NOT include \\documentclass, \\usepackage, \\begin\x7bdocument\x7d or \\end\x7bdocument\x7d \n        - Do NOT include any preamble or document setup commands\n        - ONLY provide the content that goes inside the document body\n        - Start with a title page using \\begin\x7bcenter\x7d environment\n        - After the title page, add: \\newpage followed by \\tableofcontents followed by \\newpage\n        - Include detailed technical analysis of each module\n        - Create logical sections and subsections as appropriate\n        - Use proper LaTeX syntax for all formatting\n        - Include academic-style content suitable for a university specification document\n        \n        CONTENT REQUIREMENTS:\n        1. Title page (center environment with title, institution, date)\n        2. Table of contents (\\tableofcontents)\n        3. Create an introduction/overview section\n        4. For EACH module, create a dedicated section with:\n           - Complete code listing (use \\begin\x7bverbatim\x7d \\end\x7bverbatim\x7d for code)\n           - Detailed functional analysis\n           - Interface description (inputs, outputs, parameters)\n           - Behavioral analysis\n           - Timing considerations\n           - Design patterns used\n           - Potential improvements\n        5. Create a conclusions/summary section\n        6. Add any other sections you deem appropriate (references, appendices, etc.)\n        \n        Make the document comprehensive, technical, and professionally structured.\n        ").toList

/-- The `VerilogAnalyzer._generate_fallback_document`: the static three-section
body substituted when whole-document generation fails. -/
def generate_fallback_document : List Char :=
  ("\n\\begin\x7bcenter\x7d\n\x7b\\Huge\x7bVerilog Module Specification\x7d\x7d \\\\\n\\vspace\x7b2mm\x7d\n\x7b\\Large\x7bDigital Design Analysis\x7d\x7d \\\\\n\\vspace\x7b1mm\x7d\n\x7b\\Large\x7bTechnical Documentation\x7d\x7d\n\\end\x7bcenter\x7d\n\n\\newpage\n\\tableofcontents\n\\newpage\n\n\\section\x7bIntroduction\x7d\nThis document provides a comprehensive analysis of Verilog modules for digital design applications.\n\n\\section\x7bModule Analysis\x7d\nDetailed analysis of each module would be provided here.\n\n\\section\x7bConclusions\x7d\nSummary and conclusions would be provided here.\n").toList

/-- The `VerilogAnalyzer._generate_complete_document`: one model call for the
whole document body; any failure substitutes the static fallback body. -/
def generate_complete_document (llm : List Char → Except (List Char) (List Char))
    (modules : List VerilogModule) : List Char :=
  match llm (document_prompt modules) with
  | Except.ok r => pyStrip r
  | Except.error _ => generate_fallback_document

/-- The execution environment: the out-of-scope collaborators.  `fs` reads a
file, `dirs` enumerates the matching files of a directory (`none` when the
directory does not exist), `llm` is the opaque text-completion endpoint, and
`config` is the result of the out-of-scope YAML/credential loading (modelled
as always succeeding, since configuration errors are fatal at startup and
outside every claim). -/
structure Env where
  fs : List Char → Option (List Char)
  dirs : List Char → Option (List (List Char))
  llm : List Char → Except (List Char) (List Char)
  config : Config

/-- The `VerilogAnalyzer` object state: its loaded configuration and its
append-only module collection. -/
structure Analyzer where
  config : Config
  modules : List VerilogModule

/-- The `VerilogAnalyzer.__init__`: load the configuration and start with an
empty module collection (the YAML loader and client construction are the
out-of-scope collaborators). -/
def mkAnalyzer (cfg : Config) : Analyzer :=
  { config := cfg, modules := [] }

/-- Placeholder for `str(FileNotFoundError)` when the template cannot be
opened; the claims never inspect this text. -/
def fileNotFoundText (p : List Char) : List Char :=
  ("[Errno 2] No such file or directory: \x27").toList ++ p ++ ("\x27").toList

/-- The `VerilogAnalyzer.generate_latex_document`: resolve the output path from
the argument or the configuration, read the template (a missing template
raises, modelled as `Except.error`), generate the document body, splice it
into the template, and write the result.  The returned pair is the write:
(output path, written text). -/
def generate_latex_document (env : Env) (an : Analyzer)
    (template_path : List Char) (output_path : Option (List Char)) :
    Except (List Char) (List Char × List Char) :=
  let out := output_path.getD an.config.latexFilename
  match env.fs template_path with
  | none => Except.error (fileNotFoundText template_path)
  | some template_content =>
      let doc := generate_complete_document env.llm an.modules
      Except.ok (out, replace_entire_document_content template_content doc)

/-- The `VerilogAnalyzer.run_complete_analysis`: load the enumerated files of
the input directory (a missing directory enumerates to no files, as `glob`
returns an empty list), return early when no modules are loaded, otherwise
analyze every module and generate the document.  Returns the analyzer state
after the run together with `Except.ok none` (returned without writing),
`Except.ok (some write)` (document written), or `Except.error` (an uncaught
template failure, with the mutations up to that point kept). -/
def run_complete_analysis (env : Env) (input_dir template_path : List Char)
    (output_path : Option (List Char)) (an : Analyzer) :
    Analyzer × Except (List Char) (Option (List Char × List Char)) :=
  let paths := (env.dirs input_dir).getD []
  let mods := load_verilog_files env.fs paths an.modules
  let an1 : Analyzer := { an with modules := mods }
  if mods.isEmpty then (an1, Except.ok none)
  else
    let an2 : Analyzer := { an1 with modules := analyze_modules an.config env.llm mods }
    match generate_latex_document env an2 template_path output_path with
    | Except.error e => (an2, Except.error e)
    | Except.ok w => (an2, Except.ok (some w))

/-- One entry of the tool dispatch table (`handle_list_tools`): the operation
name and the required argument names of its input schema. -/
structure ToolDecl where
  name : List Char
  required : List (List Char)
deriving DecidableEq

/-- The `handle_list_tools`: the static dispatch table exposed by the remote
tool front end, in source order. -/
def handle_list_tools : List ToolDecl :=
  [ { name := ("initialize_analyzer").toList, required := [] }
  , { name := ("load_verilog_files").toList, required := [("input_dir").toList] }
  , { name := ("get_loaded_modules").toList, required := [] }
  , { name := ("parse_verilog_file").toList, required := [("file_path").toList] }
  , { name := ("extract_ports").toList, required := [("verilog_code").toList] }
  , { name := ("analyze_single_module").toList, required := [("module_name").toList] }
  , { name := ("analyze_all_modules").toList, required := [] }
  , { name := ("generate_latex_document").toList, required := [] }
  , { name := ("run_complete_analysis").toList, required := [("input_dir").toList] }
  , { name := ("get_module_details").toList, required := [("module_name").toList] } ]

/-- The text of the caught `KeyError` a missing required argument produces:
`f"Error executing tool {name}: {str(e)}"` with `str(KeyError(k))` being the
quoted key. -/
def keyErrText (name arg : List Char) : List Char :=
  ("Error executing tool ").toList ++ name ++ (": \x27").toList ++ arg ++ ("\x27").toList

/-- The caught-exception text for a reason that is not a `KeyError`. -/
def toolErrText (name reason : List Char) : List Char :=
  ("Error executing tool ").toList ++ name ++ (": ").toList ++ reason

/-- The three `Inputs:/Outputs:/Parameters:` lines shared by several tool
responses. -/
def portsText3 (p : Ports) : List Char :=
  ("Inputs: ").toList ++ fmtStrList p.inputs
  ++ ("\nOutputs: ").toList ++ fmtStrList p.outputs
  ++ ("\nParameters: ").toList ++ fmtParams p.parameters

/-- The comma-joined module-name list used by several tool responses. -/
def namesText (modules : List VerilogModule) : List Char :=
  List.intercalate ((", ").toList) (modules.map VerilogModule.name)

/-- Response of a successful `parse_verilog_file` call, describing whatever
module is last in the collection after the attempt. -/
def parsedOkText (file_path : List Char) (m : VerilogModule) : List Char :=
  ("Successfully parsed ").toList ++ file_path ++ (":\n").toList
  ++ ("Module: ").toList ++ m.name ++ ("\n").toList ++ portsText3 m.ports

/-- Response of a `parse_verilog_file` call that left the collection empty. -/
def parseFailText (file_path : List Char) : List Char :=
  ("Failed to parse module from ").toList ++ file_path

/-- Response of the fallback branch for an unrecognized operation name. -/
def unknownToolText (name : List Char) : List Char :=
  ("Unknown tool: ").toList ++ name

/-- The `module.analysis = analysis` after `next(m for m in modules if m.name ==
module_name)`: update the analysis of the first module with that name. -/
def setFirstAnalysis : List VerilogModule → List Char → List Char → List VerilogModule
  | [], _, _ => []
  | m :: ms, nm, a =>
    if m.name = nm then { m with analysis := a } :: ms
    else m :: setFirstAnalysis ms nm a

/-- The `initialize_analyzer` branch: rebuild the analyzer (configuration
loading is the out-of-scope collaborator) and confirm. -/
def initBranch (env : Env) (args : List Char → Option (List Char)) :
    Option Analyzer × List (List Char) :=
  let config_path := (args (("config_path").toList)).getD (("config.yaml").toList)
  (some (mkAnalyzer env.config),
   [("Verilog analyzer initialized successfully with config: ").toList ++ config_path])

/-- The `load_verilog_files` branch: existence check on the directory, then load
and report the cumulative module collection. -/
def loadBranch (env : Env) (an : Analyzer) (args : List Char → Option (List Char)) :
    Option Analyzer × List (List Char) :=
  match args (("input_dir").toList) with
  | none => (some an, [keyErrText (("load_verilog_files").toList) (("input_dir").toList)])
  | some input_dir =>
    match env.dirs input_dir with
    | none =>
        (some an, [("Error: Directory ").toList ++ input_dir ++ (" does not exist").toList])
    | some paths =>
        let an2 : Analyzer := { an with modules := load_verilog_files env.fs paths an.modules }
        (some an2,
         [("Successfully loaded ").toList ++ natText an2.modules.length
          ++ (" Verilog modules from ").toList ++ input_dir ++ (":\n").toList
          ++ ("Modules: ").toList ++ namesText an2.modules])

/-- The `get_loaded_modules` branch. -/
def getLoadedBranch (an : Analyzer) : Option Analyzer × List (List Char) :=
  if an.modules.isEmpty then
    (some an, [("No modules currently loaded. Use load_verilog_files first.").toList])
  else
    (some an,
     [("Currently loaded modules (").toList ++ natText an.modules.length ++ ("):\n").toList
      ++ List.intercalate (("\n").toList)
           (an.modules.map (fun m =>
             ("- ").toList ++ m.name ++ (" (from ").toList ++ m.filename ++ (")").toList))])

/-- The `parse_verilog_file` branch: existence check, parse (which appends only
when the module pattern matches), then report on `modules[-1]` when the
collection is non-empty and a failure otherwise. -/
def parseBranch (env : Env) (an : Analyzer) (args : List Char → Option (List Char)) :
    Option Analyzer × List (List Char) :=
  match args (("file_path").toList) with
  | none => (some an, [keyErrText (("parse_verilog_file").toList) (("file_path").toList)])
  | some file_path =>
    if (env.fs file_path).isNone then
      (some an, [("Error: File ").toList ++ file_path ++ (" does not exist").toList])
    else
      let an2 : Analyzer := { an with modules := parse_verilog_file env.fs an.modules file_path }
      match an2.modules.getLast? with
      | some m => (some an2, [parsedOkText file_path m])
      | none => (some an2, [parseFailText file_path])

/-- The `extract_ports` branch. -/
def extractBranch (an : Analyzer) (args : List Char → Option (List Char)) :
    Option Analyzer × List (List Char) :=
  match args (("verilog_code").toList) with
  | none => (some an, [keyErrText (("extract_ports").toList) (("verilog_code").toList)])
  | some verilog_code =>
      (some an,
       [("Extracted ports from Verilog code:\n").toList ++ portsText3 (extract_ports verilog_code)])

/-- The `analyze_single_module` branch: find the first module with the given
name, analyze it, store the analysis on that record. -/
def analyzeOneBranch (env : Env) (an : Analyzer) (args : List Char → Option (List Char)) :
    Option Analyzer × List (List Char) :=
  match args (("module_name").toList) with
  | none => (some an, [keyErrText (("analyze_single_module").toList) (("module_name").toList)])
  | some module_name =>
    match an.modules.find? (fun m => m.name = module_name) with
    | none =>
        (some an,
         [("Module \x27").toList ++ module_name
          ++ ("\x27 not found. Available modules: ").toList ++ namesText an.modules])
    | some m =>
        let analysis := analyze_single_module an.config env.llm m
        let an2 : Analyzer := { an with modules := setFirstAnalysis an.modules module_name analysis }
        (some an2,
         [("Analysis completed for module \x27").toList ++ module_name
          ++ ("\x27:\n\n").toList ++ analysis])

/-- The `analyze_all_modules` branch. -/
def analyzeAllBranch (env : Env) (an : Analyzer) : Option Analyzer × List (List Char) :=
  if an.modules.isEmpty then
    (some an, [("No modules loaded. Use load_verilog_files first.").toList])
  else
    let an2 : Analyzer := { an with modules := analyze_modules an.config env.llm an.modules }
    (some an2,
     [("Analysis completed for ").toList ++ natText an2.modules.length
      ++ (" modules:\n\n").toList
      ++ List.intercalate (("\n\n").toList)
           (an2.modules.map (fun m =>
             ("Module: ").toList ++ m.name ++ ("\nAnalysis: ").toList
             ++ m.analysis.take 200 ++ ("...").toList))])

/-- The `generate_latex_document` branch: a template failure is caught by the
handler and returned as text. -/
def generateBranch (env : Env) (an : Analyzer) (args : List Char → Option (List Char)) :
    Option Analyzer × List (List Char) :=
  if an.modules.isEmpty then
    (some an, [("No modules loaded. Load and analyze modules first.").toList])
  else
    let template_path := (args (("template_path").toList)).getD (("template.tex").toList)
    let output_path := args (("output_path").toList)
    match generate_latex_document env an template_path output_path with
    | Except.error e => (some an, [toolErrText (("generate_latex_document").toList) e])
    | Except.ok _ =>
        (some an,
         [("LaTeX document generated successfully: ").toList
          ++ (output_path.getD an.config.latexFilename)])

/-- The `run_complete_analysis` branch: the pipeline mutates the analyzer even
when a template failure is then caught and reported as text. -/
def runBranch (env : Env) (an : Analyzer) (args : List Char → Option (List Char)) :
    Option Analyzer × List (List Char) :=
  match args (("input_dir").toList) with
  | none => (some an, [keyErrText (("run_complete_analysis").toList) (("input_dir").toList)])
  | some input_dir =>
    let template_path := (args (("template_path").toList)).getD (("template.tex").toList)
    let output_path := args (("output_path").toList)
    match run_complete_analysis env input_dir template_path output_path an with
    | (an2, Except.error e) => (some an2, [toolErrText (("run_complete_analysis").toList) e])
    | (an2, Except.ok _) =>
        (some an2,
         [("Complete analysis pipeline finished successfully!\n").toList
          ++ ("Processed ").toList ++ natText an2.modules.length ++ (" modules\n").toList
          ++ ("Generated document: ").toList ++ (output_path.getD an2.config.latexFilename)
          ++ ("\n").toList ++ ("Modules: ").toList ++ namesText an2.modules])

/-- The `get_module_details` branch. -/
def detailsBranch (an : Analyzer) (args : List Char → Option (List Char)) :
    Option Analyzer × List (List Char) :=
  match args (("module_name").toList) with
  | none => (some an, [keyErrText (("get_module_details").toList) (("module_name").toList)])
  | some module_name =>
    match an.modules.find? (fun m => m.name = module_name) with
    | none =>
        (some an,
         [("Module \x27").toList ++ module_name
          ++ ("\x27 not found. Available modules: ").toList ++ namesText an.modules])
    | some m =>
        (some an,
         [("Module: ").toList ++ m.name
          ++ ("\nFile: ").toList ++ m.filename ++ ("\n").toList ++ portsText3 m.ports
          ++ ("\nHas Analysis: ").toList
          ++ (if m.analysis.isEmpty then ("No").toList else ("Yes").toList) ++ ("\n").toList
          ++ (if m.analysis.isEmpty then []
              else ("\nAnalysis Preview:\n").toList ++ m.analysis.take 300 ++ ("...").toList)])

/-- The `handle_call_tool`: the remote tool front end.  The global
`analyzer_instance` is the `Option Analyzer` state, lazily initialized for
every operation other than the initializer; the result is the new state and
the single-element text payload list. -/
def handle_call_tool (env : Env) (st : Option Analyzer) (name : List Char)
    (args : List Char → Option (List Char)) : Option Analyzer × List (List Char) :=
  if name = ("initialize_analyzer").toList then initBranch env args
  else
    let an := st.getD (mkAnalyzer env.config)
    if name = ("load_verilog_files").toList then loadBranch env an args
    else if name = ("get_loaded_modules").toList then getLoadedBranch an
    else if name = ("parse_verilog_file").toList then parseBranch env an args
    else if name = ("extract_ports").toList then extractBranch an args
    else if name = ("analyze_single_module").toList then analyzeOneBranch env an args
    else if name = ("analyze_all_modules").toList then analyzeAllBranch env an
    else if name = ("generate_latex_document").toList then generateBranch env an args
    else if name = ("run_complete_analysis").toList then runBranch env an args
    else if name = ("get_module_details").toList then detailsBranch an args
    else (some an, [unknownToolText name])

/-- Specification-side description of the record appended for one
enumerated path: the identifier captured at the first `module` keyword
occurrence, the base name, the full contents, the extracted ports and an
empty analysis — or nothing when the file is unreadable or has no match. -/
def loadedRecord (fs : List Char → Option (List Char)) (path : List Char) :
    Option VerilogModule :=
  (fs path).bind (fun code =>
    (searchModule code).map (fun nm =>
      { name := nm
        filename := basename path
        code := code
        ports := extract_ports code
        description := []
        analysis := [] }))

/-! Concrete fixtures used by the witness theorems. -/

/-- A concrete configuration for witnesses. -/
def cfgW : Config :=
  { latexFilename := ("output/specification.tex").toList
    includeSections := [("functionality_overview").toList]
    maxSectionLength := 100 }

/-- A Verilog source with one module for witnesses. -/
def codeAdderW : List Char := ("module adder(input a, input b);\nendmodule\n").toList

/-- A module-free source text for witnesses. -/
def codeEmptyW : List Char := ("// nothing here\n").toList

/-- A template with both markers for witnesses. -/
def templateW : List Char :=
  ("\\documentclass\x7barticle\x7d\n\\begin\x7bdocument\x7d\nold body\n\\end\x7bdocument\x7d\n").toList

/-- A concrete filesystem oracle for witnesses. -/
def fsW : List Char → Option (List Char) :=
  fun p =>
    if p = ("template.tex").toList then some templateW
    else if p = ("dir/adder.v").toList then some codeAdderW
    else if p = ("dir/empty.v").toList then some codeEmptyW
    else none

/-- A concrete environment whose model oracle always fails, for witnesses. -/
def envW : Env :=
  { fs := fsW
    dirs := fun d =>
      if d = ("dir").toList then some [("dir/adder.v").toList, ("dir/empty.v").toList]
      else none
    llm := fun _ => Except.error (("service down").toList)
    config := cfgW }

/-- A concrete loaded module record for witnesses. -/
def moduleW : VerilogModule :=
  { name := ("adder").toList
    filename := ("adder.v").toList
    code := codeAdderW
    ports := extract_ports codeAdderW
    description := []
    analysis := [] }

/-! Occurrence machinery for the marker-splicing and keyword-absence claims. -/

/-- The `nd` occurs as a contiguous substring of `hay`. -/
def occursIn (nd hay : List Char) : Prop :=
  ∃ pre post, hay = pre ++ nd ++ post

/-- The `nd` matches at position `i` of `hay`. -/
def prefixAt (nd hay : List Char) (i : Nat) : Prop :=
  nd.isPrefixOf (List.drop i hay) = true

/-- The `i` is the position of the first occurrence of `nd` in `hay`. -/
def firstOccurAt (nd hay : List Char) (i : Nat) : Prop :=
  prefixAt nd hay i ∧ ∀ m, m < i → ¬ prefixAt nd hay m

instance (nd hay : List Char) (i : Nat) : Decidable (prefixAt nd hay i) := by
  unfold prefixAt
  infer_instance

instance (nd hay : List Char) (i : Nat) : Decidable (firstOccurAt nd hay i) := by
  unfold firstOccurAt
  infer_instance

theorem prefixOf_append (l t : List Char) : l.isPrefixOf (l ++ t) = true := by
  induction l with
  | nil => simp [List.isPrefixOf]
  | cons a as ih => simp [List.isPrefixOf, ih]

theorem eq_append_of_prefixOf {nd l : List Char} (h : nd.isPrefixOf l = true) :
    ∃ t, l = nd ++ t := by
  induction nd generalizing l with
  | nil => exact ⟨l, rfl⟩
  | cons a as ih =>
    cases l with
    | nil => simp [List.isPrefixOf] at h
    | cons b bs =>
      simp only [List.isPrefixOf, Bool.and_eq_true, beq_iff_eq] at h
      obtain ⟨t, ht⟩ := ih h.2
      exact ⟨t, by simp [h.1, ht]⟩

theorem occursIn_of_prefixOf {nd hay : List Char} (h : nd.isPrefixOf hay = true) :
    occursIn nd hay := by
  obtain ⟨t, ht⟩ := eq_append_of_prefixOf h
  exact ⟨[], t, by simp [ht]⟩

theorem occursIn_cons {nd t : List Char} {c : Char} (h : occursIn nd t) :
    occursIn nd (c :: t) := by
  obtain ⟨pre, post, hh⟩ := h
  exact ⟨c :: pre, post, by simp [hh]⟩

theorem strFind_eq_none (nd hay : List Char) (h : ¬ occursIn nd hay) :
    strFind nd hay = none := by
  induction hay with
  | nil =>
    simp only [strFind]
    rw [if_neg (fun hp => h (occursIn_of_prefixOf hp))]
  | cons c t ih =>
    simp only [strFind]
    rw [if_neg (fun hp => h (occursIn_of_prefixOf hp)),
        ih (fun ho => h (occursIn_cons ho))]
    rfl

theorem strFind_isSome_of_occurs (nd : List Char) :
    ∀ hay, occursIn nd hay → (strFind nd hay).isSome = true := by
  intro hay
  induction hay with
  | nil =>
    rintro ⟨pre, post, hh⟩
    rcases List.append_eq_nil.mp hh.symm with ⟨h1, h2⟩
    rcases List.append_eq_nil.mp h1 with ⟨h3, h4⟩
    subst h4
    simp [strFind, List.isPrefixOf]
  | cons c t ih =>
    rintro ⟨pre, post, hh⟩
    by_cases hp : nd.isPrefixOf (c :: t) = true
    · simp [strFind, hp]
    · cases pre with
      | nil =>
        exact absurd (by rw [hh]; simp [prefixOf_append]) hp
      | cons a as =>
        have ht : t = as ++ nd ++ post := by
          have hh2 : c :: t = a :: (as ++ nd ++ post) := by simpa using hh
          injection hh2
        have hs := ih ⟨as, post, ht⟩
        simp only [strFind]
        rw [if_neg hp]
        simpa using hs

theorem occursIn_iff_strFind (nd hay : List Char) :
    occursIn nd hay ↔ (strFind nd hay).isSome = true := by
  constructor
  · exact strFind_isSome_of_occurs nd hay
  · intro h
    by_contra ho
    rw [strFind_eq_none nd hay ho] at h
    simp at h

theorem strFind_eq_of_first (nd hay : List Char) (n : Nat)
    (h1 : prefixAt nd hay n) (h2 : ∀ m, m < n → ¬ prefixAt nd hay m) :
    strFind nd hay = some n := by
  induction hay generalizing n with
  | nil =>
    have h0 : nd.isPrefixOf [] = true := by simpa [prefixAt] using h1
    have hn : n = 0 := by
      by_contra hne
      exact h2 0 (Nat.pos_of_ne_zero hne) (by simpa [prefixAt] using h0)
    subst hn
    simp [strFind, h0]
  | cons c t ih =>
    by_cases hp : nd.isPrefixOf (c :: t) = true
    · have hn : n = 0 := by
        by_contra hne
        exact h2 0 (Nat.pos_of_ne_zero hne) (by simpa [prefixAt] using hp)
      subst hn
      simp [strFind, hp]
    · have hn0 : n ≠ 0 := by
        intro h0
        subst h0
        exact hp (by simpa [prefixAt] using h1)
      obtain ⟨k, rfl⟩ : ∃ k, n = k + 1 := ⟨n - 1, by omega⟩
      have h1' : prefixAt nd t k := by
        simpa [prefixAt, List.drop_succ_cons] using h1
      have h2' : ∀ m, m < k → ¬ prefixAt nd t m := by
        intro m hm hpm
        exact h2 (m + 1) (by omega) (by simpa [prefixAt, List.drop_succ_cons] using hpm)
      simp [strFind, hp, ih k h1' h2']

/-! Support for the keyword-absence claim: a port or parameter match always
starts with its literal keyword, so a text without the keyword substring
yields no match. -/

theorem matchPortAt_prefixOf {kw cs : List Char} {r : List Char × List Char}
    (h : matchPortAt kw cs = some r) : kw.isPrefixOf cs = true := by
  by_cases hp : kw.isPrefixOf cs = true
  · exact hp
  · exfalso
    unfold matchPortAt matchLit at h
    rw [if_neg hp] at h
    simp at h

theorem matchParamAt_prefixOf {cs : List Char} {r : (List Char × List Char) × List Char}
    (h : matchParamAt cs = some r) : (("parameter").toList).isPrefixOf cs = true := by
  by_cases hp : (("parameter").toList).isPrefixOf cs = true
  · exact hp
  · exfalso
    unfold matchParamAt matchLit at h
    rw [if_neg hp] at h
    simp at h

theorem findallPorts_eq_nil (kw : List Char) :
    ∀ fuel cs, ¬ occursIn kw cs → findallPorts kw fuel cs = [] := by
  intro fuel
  induction fuel with
  | zero => intro cs _; rfl
  | succ f ih =>
    intro cs h
    cases cs with
    | nil => rfl
    | cons c t =>
      have hm : matchPortAt kw (c :: t) = none := by
        cases hmp : matchPortAt kw (c :: t) with
        | none => rfl
        | some r => exact absurd (occursIn_of_prefixOf (matchPortAt_prefixOf hmp)) h
      simp only [findallPorts, hm]
      exact ih t (fun ho => h (occursIn_cons ho))

theorem findallParams_eq_nil :
    ∀ fuel cs, ¬ occursIn (("parameter").toList) cs → findallParams fuel cs = [] := by
  intro fuel
  induction fuel with
  | zero => intro cs _; rfl
  | succ f ih =>
    intro cs h
    cases cs with
    | nil => rfl
    | cons c t =>
      have hm : matchParamAt (c :: t) = none := by
        cases hmp : matchParamAt (c :: t) with
        | none => rfl
        | some r => exact absurd (occursIn_of_prefixOf (matchParamAt_prefixOf hmp)) h
      simp only [findallParams, hm]
      exact ih t (fun ho => h (occursIn_cons ho))

/-! The claims. -/

/-- C1: for every template containing both literal markers (at first
occurrences `b` and `e`), document assembly returns the template up to and
including the begin marker, the body surrounded by blank-line separators,
and the template from the end marker onward; in particular, on template
`PRE\begin{document}OLD\end{document}POST` with body `NEW`, the result
begins with `PRE\begin{document}`, contains `NEW`, ends with
`\end{document}POST`, and does not contain `OLD`. -/
theorem spec_C1_document_assembly (template body : List Char) (b e : Nat)
    (hb : firstOccurAt beginDocMarker template b)
    (he : firstOccurAt endDocMarker template e) :
    (replace_entire_document_content template body
      = List.take (b + beginDocMarker.length) template
        ++ ("\n\n").toList ++ body ++ ("\n\n").toList ++ List.drop e template)
    ∧ ((("PRE\\begin\x7bdocument\x7d").toList).isPrefixOf
         (replace_entire_document_content
           (("PRE\\begin\x7bdocument\x7dOLD\\end\x7bdocument\x7dPOST").toList)
           (("NEW").toList)) = true
       ∧ occursIn (("NEW").toList)
           (replace_entire_document_content
             (("PRE\\begin\x7bdocument\x7dOLD\\end\x7bdocument\x7dPOST").toList)
             (("NEW").toList))
       ∧ (("\\end\x7bdocument\x7dPOST").toList).isSuffixOf
           (replace_entire_document_content
             (("PRE\\begin\x7bdocument\x7dOLD\\end\x7bdocument\x7dPOST").toList)
             (("NEW").toList)) = true
       ∧ ¬ occursIn (("OLD").toList)
           (replace_entire_document_content
             (("PRE\\begin\x7bdocument\x7dOLD\\end\x7bdocument\x7dPOST").toList)
             (("NEW").toList))) := by
  constructor
  · unfold replace_entire_document_content
    rw [strFind_eq_of_first _ _ _ hb.1 hb.2, strFind_eq_of_first _ _ _ he.1 he.2]
  · refine ⟨by decide, ?_, by decide, ?_⟩
    · rw [occursIn_iff_strFind]
      decide
    · rw [occursIn_iff_strFind]
      decide

/-- Witness for C1 at the spec's concrete template and body, with the first
marker occurrences at positions 3 and 22. -/
theorem spec_C1_document_assembly_witness :
    firstOccurAt beginDocMarker
      (("PRE\\begin\x7bdocument\x7dOLD\\end\x7bdocument\x7dPOST").toList) 3
    ∧ firstOccurAt endDocMarker
        (("PRE\\begin\x7bdocument\x7dOLD\\end\x7bdocument\x7dPOST").toList) 22
    ∧ replace_entire_document_content
        (("PRE\\begin\x7bdocument\x7dOLD\\end\x7bdocument\x7dPOST").toList) (("NEW").toList)
      = List.take (3 + beginDocMarker.length)
          (("PRE\\begin\x7bdocument\x7dOLD\\end\x7bdocument\x7dPOST").toList)
        ++ ("\n\n").toList ++ ("NEW").toList ++ ("\n\n").toList
        ++ List.drop 22 (("PRE\\begin\x7bdocument\x7dOLD\\end\x7bdocument\x7dPOST").toList) :=
  ⟨by decide, by decide,
   (spec_C1_document_assembly
      (("PRE\\begin\x7bdocument\x7dOLD\\end\x7bdocument\x7dPOST").toList)
      (("NEW").toList) 3 22 (by decide) (by decide)).1⟩

/-- C2: for every template in which at least one of the two markers does not
occur, document assembly returns the template unchanged (and, being a total
function, does not raise). -/
theorem spec_C2_template_unchanged (template body : List Char)
    (h : ¬ occursIn beginDocMarker template ∨ ¬ occursIn endDocMarker template) :
    replace_entire_document_content template body = template := by
  unfold replace_entire_document_content
  rcases h with h | h
  · rw [strFind_eq_none _ _ h]
  · rw [strFind_eq_none _ _ h]
    cases strFind beginDocMarker template <;> rfl

/-- Witness for C2 on a marker-free template. -/
theorem spec_C2_template_unchanged_witness :
    (¬ occursIn beginDocMarker (("hello world").toList)
      ∨ ¬ occursIn endDocMarker (("hello world").toList))
    ∧ replace_entire_document_content (("hello world").toList) (("NEW").toList)
        = ("hello world").toList :=
  ⟨Or.inl (by rw [occursIn_iff_strFind]; decide),
   spec_C2_template_unchanged (("hello world").toList) (("NEW").toList)
     (Or.inl (by rw [occursIn_iff_strFind]; decide))⟩

/-- C3: port extraction on
`input wire [3:0] foo, output reg bar, parameter BAZ=4` yields
inputs `["foo"]`, outputs `["bar"]`, parameters `[("BAZ", "4")]`. -/
theorem spec_C3_port_extraction_example :
    extract_ports (("input wire [3:0] foo, output reg bar, parameter BAZ=4").toList)
      = { inputs := [("foo").toList]
          outputs := [("bar").toList]
          parameters := [((("BAZ").toList), ("4").toList)] } := by
  rfl

/-- C4: port extraction is total by construction (it is a Lean function into
the three-list structure); and on any text without an occurrence of the
keywords `input`, `output` and `parameter`, all three lists are empty. -/
theorem spec_C4_no_keywords_empty (code : List Char)
    (h1 : ¬ occursIn (("input").toList) code)
    (h2 : ¬ occursIn (("output").toList) code)
    (h3 : ¬ occursIn (("parameter").toList) code) :
    extract_ports code = { inputs := [], outputs := [], parameters := [] } := by
  unfold extract_ports
  rw [findallPorts_eq_nil _ _ _ h1, findallPorts_eq_nil _ _ _ h2,
      findallParams_eq_nil _ _ h3]

/-- Witness for C4 on a keyword-free text. -/
theorem spec_C4_no_keywords_empty_witness :
    (¬ occursIn (("input").toList) (("assign x = y;").toList)
      ∧ ¬ occursIn (("output").toList) (("assign x = y;").toList)
      ∧ ¬ occursIn (("parameter").toList) (("assign x = y;").toList))
    ∧ extract_ports (("assign x = y;").toList)
        = { inputs := [], outputs := [], parameters := [] } :=
  ⟨⟨by rw [occursIn_iff_strFind]; decide, by rw [occursIn_iff_strFind]; decide,
    by rw [occursIn_iff_strFind]; decide⟩,
   spec_C4_no_keywords_empty (("assign x = y;").toList)
     (by rw [occursIn_iff_strFind]; decide) (by rw [occursIn_iff_strFind]; decide)
     (by rw [occursIn_iff_strFind]; decide)⟩

/-! Support for the loader claim. -/

theorem parse_eq_append (fs : List Char → Option (List Char))
    (m : List VerilogModule) (p : List Char) :
    parse_verilog_file fs m p = m ++ (loadedRecord fs p).toList := by
  unfold parse_verilog_file loadedRecord
  cases hfs : fs p with
  | none => simp
  | some code =>
    cases hsm : searchModule code with
    | none => simp [hsm]
    | some nm => simp [hsm]

theorem load_eq_filterMap (fs : List Char → Option (List Char)) :
    ∀ paths mods0, load_verilog_files fs paths mods0
      = mods0 ++ paths.filterMap (loadedRecord fs) := by
  intro paths
  induction paths with
  | nil => intro m; simp [load_verilog_files]
  | cons p ps ih =>
    intro m
    have h1 : load_verilog_files fs (p :: ps) m
        = load_verilog_files fs ps (parse_verilog_file fs m p) := rfl
    rw [h1, ih, parse_eq_append]
    cases hl : loadedRecord fs p with
    | none => simp [hl, List.filterMap_cons]
    | some r => simp [hl, List.filterMap_cons]

theorem loadedRecord_isNone (fs : List Char → Option (List Char)) (p : List Char) :
    (loadedRecord fs p).isNone = ((fs p).bind searchModule).isNone := by
  unfold loadedRecord
  cases hfs : fs p with
  | none => rfl
  | some code =>
    cases hsm : searchModule code with
    | none => simp [hsm]
    | some nm => simp [hsm]

theorem filterMap_loadedRecord_length (fs : List Char → Option (List Char)) :
    ∀ paths : List (List Char),
      (paths.filterMap (loadedRecord fs)).length
        = paths.length
          - (paths.filter (fun p => ((fs p).bind searchModule).isNone)).length := by
  intro paths
  induction paths with
  | nil => rfl
  | cons p ps ih =>
    have hlen := List.length_filter_le (fun p => ((fs p).bind searchModule).isNone) ps
    cases hl : loadedRecord fs p with
    | none =>
      have hf : ((fs p).bind searchModule).isNone = true := by
        rw [← loadedRecord_isNone, hl]
        rfl
      simp only [List.filterMap_cons, hl, List.filter_cons, hf, if_pos, List.length_cons]
      omega
    | some r =>
      have hf : ((fs p).bind searchModule).isNone = false := by
        rw [← loadedRecord_isNone, hl]
        rfl
      simp only [List.filterMap_cons, hl, List.filter_cons, hf, List.length_cons]
      rw [if_neg (by simp)]
      omega

/-- C5: loading a directory whose enumeration yields `N` readable files, `M`
of which contain no match of the module-keyword pattern, appends exactly
`N - M` records in enumeration order, each with name = the identifier
captured at the first `module` keyword, filename = the base name, text = the
full contents, ports = port extraction of that text, and an empty
analysis. -/
theorem spec_C5_loader (fs : List Char → Option (List Char))
    (paths : List (List Char)) (mods0 : List VerilogModule)
    (hread : ∀ p ∈ paths, (fs p).isSome = true) :
    load_verilog_files fs paths mods0 = mods0 ++ paths.filterMap (loadedRecord fs)
    ∧ (load_verilog_files fs paths mods0).length
        = mods0.length
          + (paths.length
             - (paths.filter (fun p => ((fs p).bind searchModule).isNone)).length) := by
  constructor
  · exact load_eq_filterMap fs paths mods0
  · rw [load_eq_filterMap fs paths mods0, List.length_append,
        filterMap_loadedRecord_length fs paths]

/-- Witness for C5: two readable files, one with a module and one without,
loading exactly one record. -/
theorem spec_C5_loader_witness :
    (∀ p ∈ [("dir/adder.v").toList, ("dir/empty.v").toList], (fsW p).isSome = true)
    ∧ (load_verilog_files fsW [("dir/adder.v").toList, ("dir/empty.v").toList] []
        = [] ++ ([("dir/adder.v").toList, ("dir/empty.v").toList]).filterMap (loadedRecord fsW)
       ∧ (load_verilog_files fsW [("dir/adder.v").toList, ("dir/empty.v").toList] []).length
          = ([] : List VerilogModule).length
            + (([("dir/adder.v").toList, ("dir/empty.v").toList]).length
               - (([("dir/adder.v").toList, ("dir/empty.v").toList]).filter
                    (fun p => ((fsW p).bind searchModule).isNone)).length)) :=
  ⟨by decide,
   spec_C5_loader fsW [("dir/adder.v").toList, ("dir/empty.v").toList] [] (by decide)⟩

/-- C6: when the external analysis call fails, single-module analysis does
not propagate the failure but returns a non-empty placeholder containing the
module name and the failure reason; and the pipeline still proceeds to
assemble a document whenever any modules are loaded (regardless of the model
oracle's behaviour), failing only short of a readable template. -/
theorem spec_C6_analysis_failure (cfg : Config)
    (llm : List Char → Except (List Char) (List Char)) (m : VerilogModule)
    (err : List Char)
    (h : llm (create_analysis_prompt cfg m) = Except.error err) :
    analyze_single_module cfg llm m ≠ []
    ∧ occursIn m.name (analyze_single_module cfg llm m)
    ∧ occursIn err (analyze_single_module cfg llm m)
    ∧ (∀ (env : Env) (dir tpath : List Char) (opath : Option (List Char))
         (an : Analyzer) (tc : List Char),
         env.fs tpath = some tc →
         load_verilog_files env.fs ((env.dirs dir).getD []) an.modules ≠ [] →
         ∃ w, (run_complete_analysis env dir tpath opath an).2 = Except.ok (some w)) := by
  have hres : analyze_single_module cfg llm m
      = ("Analysis failed for module ").toList ++ m.name ++ (": ").toList ++ err := by
    unfold analyze_single_module
    rw [h]
  refine ⟨?_, ?_, ?_, ?_⟩
  · rw [hres]
    intro hc
    rcases List.append_eq_nil.mp hc with ⟨h1, -⟩
    rcases List.append_eq_nil.mp h1 with ⟨h2, -⟩
    rcases List.append_eq_nil.mp h2 with ⟨h3, -⟩
    exact absurd h3 (by decide)
  · rw [hres]
    exact ⟨("Analysis failed for module ").toList, (": ").toList ++ err,
      by simp [List.append_assoc]⟩
  · rw [hres]
    exact ⟨("Analysis failed for module ").toList ++ m.name ++ (": ").toList, [], by simp⟩
  · intro env dir tpath opath an tc hfs hne
    have hc : ¬ ((load_verilog_files env.fs ((env.dirs dir).getD []) an.modules).isEmpty = true) := by
      rw [List.isEmpty_iff]
      exact hne
    simp only [run_complete_analysis]
    rw [if_neg hc]
    unfold generate_latex_document
    rw [hfs]
    exact ⟨_, rfl⟩

/-- Witness for C6 with a model oracle that always fails. -/
theorem spec_C6_analysis_failure_witness :
    envW.llm (create_analysis_prompt cfgW moduleW) = Except.error (("service down").toList)
    ∧ (analyze_single_module cfgW envW.llm moduleW ≠ []
       ∧ occursIn moduleW.name (analyze_single_module cfgW envW.llm moduleW)
       ∧ occursIn (("service down").toList) (analyze_single_module cfgW envW.llm moduleW)
       ∧ (∀ (env : Env) (dir tpath : List Char) (opath : Option (List Char))
            (an : Analyzer) (tc : List Char),
            env.fs tpath = some tc →
            load_verilog_files env.fs ((env.dirs dir).getD []) an.modules ≠ [] →
            ∃ w, (run_complete_analysis env dir tpath opath an).2 = Except.ok (some w))) :=
  ⟨rfl, spec_C6_analysis_failure cfgW envW.llm moduleW (("service down").toList) rfl⟩

/-- C7: a run of the complete pipeline that loads zero modules terminates
normally and does not write an output file. -/
theorem spec_C7_empty_run (env : Env) (dir tpath : List Char)
    (opath : Option (List Char)) (an : Analyzer)
    (h : load_verilog_files env.fs ((env.dirs dir).getD []) an.modules = []) :
    (run_complete_analysis env dir tpath opath an).2 = Except.ok none := by
  have hc : (load_verilog_files env.fs ((env.dirs dir).getD []) an.modules).isEmpty = true := by
    rw [List.isEmpty_iff]
    exact h
  simp only [run_complete_analysis]
  rw [if_pos hc]

/-- Witness for C7 on a directory that enumerates to no files. -/
theorem spec_C7_empty_run_witness :
    load_verilog_files envW.fs ((envW.dirs (("nodir").toList)).getD [])
      (mkAnalyzer cfgW).modules = []
    ∧ (run_complete_analysis envW (("nodir").toList) (("template.tex").toList)
        none (mkAnalyzer cfgW)).2 = Except.ok none :=
  ⟨rfl,
   spec_C7_empty_run envW (("nodir").toList) (("template.tex").toList) none
     (mkAnalyzer cfgW) rfl⟩

/-! Every branch of the tool handler returns a single text payload. -/

theorem initBranch_payload (env : Env) (args : List Char → Option (List Char)) :
    ((initBranch env args).2).length = 1 := rfl

theorem loadBranch_payload (env : Env) (an : Analyzer) (args : List Char → Option (List Char)) :
    ((loadBranch env an args).2).length = 1 := by
  unfold loadBranch
  repeat' split
  all_goals rfl

theorem getLoadedBranch_payload (an : Analyzer) :
    ((getLoadedBranch an).2).length = 1 := by
  unfold getLoadedBranch
  repeat' split
  all_goals rfl

theorem parseBranch_payload (env : Env) (an : Analyzer) (args : List Char → Option (List Char)) :
    ((parseBranch env an args).2).length = 1 := by
  unfold parseBranch
  repeat' first
    | rfl
    | split
    | simp only []

theorem extractBranch_payload (an : Analyzer) (args : List Char → Option (List Char)) :
    ((extractBranch an args).2).length = 1 := by
  unfold extractBranch
  repeat' split
  all_goals rfl

theorem analyzeOneBranch_payload (env : Env) (an : Analyzer)
    (args : List Char → Option (List Char)) :
    ((analyzeOneBranch env an args).2).length = 1 := by
  unfold analyzeOneBranch
  repeat' split
  all_goals rfl

theorem analyzeAllBranch_payload (env : Env) (an : Analyzer) :
    ((analyzeAllBranch env an).2).length = 1 := by
  unfold analyzeAllBranch
  repeat' split
  all_goals rfl

theorem generateBranch_payload (env : Env) (an : Analyzer)
    (args : List Char → Option (List Char)) :
    ((generateBranch env an args).2).length = 1 := by
  unfold generateBranch
  repeat' first
    | rfl
    | split
    | simp only []

theorem runBranch_payload (env : Env) (an : Analyzer)
    (args : List Char → Option (List Char)) :
    ((runBranch env an args).2).length = 1 := by
  unfold runBranch
  repeat' first
    | rfl
    | split
    | simp only []

theorem detailsBranch_payload (an : Analyzer) (args : List Char → Option (List Char)) :
    ((detailsBranch an args).2).length = 1 := by
  unfold detailsBranch
  repeat' split
  all_goals rfl

theorem handle_call_tool_payload (env : Env) (st : Option Analyzer) (name : List Char)
    (args : List Char → Option (List Char)) :
    ((handle_call_tool env st name args).2).length = 1 := by
  unfold handle_call_tool
  repeat' split
  · exact initBranch_payload _ _
  · exact loadBranch_payload _ _ _
  · exact getLoadedBranch_payload _
  · exact parseBranch_payload _ _ _
  · exact extractBranch_payload _ _
  · exact analyzeOneBranch_payload _ _ _
  · exact analyzeAllBranch_payload _ _
  · exact generateBranch_payload _ _ _
  · exact runBranch_payload _ _ _
  · exact detailsBranch_payload _ _
  · rfl

/-- C8 counterexample: the dispatch table exposes ten named operations, so
its size is not nine as the claim states. -/
theorem spec_C8_not_nine_operations :
    handle_list_tools.length = 10 ∧ ¬ (handle_list_tools.length = 9) := by
  constructor
  · rfl
  · decide

/-- C8 (amended): the dispatch table exposes exactly ten named operations —
initialize, load-files, list-loaded-modules, parse-one-file,
extract-ports-from-text, analyze-one-module, analyze-all-modules,
generate-document, run-full-pipeline and get-module-details — each taking an
argument object and returning a single text payload. -/
theorem spec_C8_dispatch_table :
    handle_list_tools.map ToolDecl.name
      = [ ("initialize_analyzer").toList
        , ("load_verilog_files").toList
        , ("get_loaded_modules").toList
        , ("parse_verilog_file").toList
        , ("extract_ports").toList
        , ("analyze_single_module").toList
        , ("analyze_all_modules").toList
        , ("generate_latex_document").toList
        , ("run_complete_analysis").toList
        , ("get_module_details").toList ]
    ∧ handle_list_tools.length = 10
    ∧ ∀ (env : Env) (st : Option Analyzer) (name : List Char)
        (args : List Char → Option (List Char)),
        ((handle_call_tool env st name args).2).length = 1 := by
  refine ⟨rfl, rfl, ?_⟩
  intro env st name args
  exact handle_call_tool_payload env st name args

/-! Missing-required-argument behaviour of each branch that indexes into the
argument object: the `KeyError` is caught and returned as text. -/

theorem loadBranch_keyerr (env : Env) (an : Analyzer)
    (args : List Char → Option (List Char)) (h : args (("input_dir").toList) = none) :
    (loadBranch env an args).2
      = [keyErrText (("load_verilog_files").toList) (("input_dir").toList)] := by
  unfold loadBranch
  rw [h]

theorem parseBranch_keyerr (env : Env) (an : Analyzer)
    (args : List Char → Option (List Char)) (h : args (("file_path").toList) = none) :
    (parseBranch env an args).2
      = [keyErrText (("parse_verilog_file").toList) (("file_path").toList)] := by
  unfold parseBranch
  rw [h]

theorem extractBranch_keyerr (an : Analyzer)
    (args : List Char → Option (List Char)) (h : args (("verilog_code").toList) = none) :
    (extractBranch an args).2
      = [keyErrText (("extract_ports").toList) (("verilog_code").toList)] := by
  unfold extractBranch
  rw [h]

theorem analyzeOneBranch_keyerr (env : Env) (an : Analyzer)
    (args : List Char → Option (List Char)) (h : args (("module_name").toList) = none) :
    (analyzeOneBranch env an args).2
      = [keyErrText (("analyze_single_module").toList) (("module_name").toList)] := by
  unfold analyzeOneBranch
  rw [h]

theorem runBranch_keyerr (env : Env) (an : Analyzer)
    (args : List Char → Option (List Char)) (h : args (("input_dir").toList) = none) :
    (runBranch env an args).2
      = [keyErrText (("run_complete_analysis").toList) (("input_dir").toList)] := by
  unfold runBranch
  rw [h]

theorem detailsBranch_keyerr (an : Analyzer)
    (args : List Char → Option (List Char)) (h : args (("module_name").toList) = none) :
    (detailsBranch an args).2
      = [keyErrText (("get_module_details").toList) (("module_name").toList)] := by
  unfold detailsBranch
  rw [h]

/-- C9: a call that omits a required argument of its operation gets the
caught-`KeyError` text back, a call naming an unknown operation gets the
unknown-tool text back — in both cases a normal single-text response rather
than a protocol-level fault, since the handler is a total function — and the
dispatch still serves a subsequent valid call (here `extract_ports`) from
any state, including the state left behind by a failed call. -/
theorem spec_C9_tool_errors :
    (∀ (env : Env) (st : Option Analyzer) (args : List Char → Option (List Char))
       (td : ToolDecl) (a : List Char),
       td ∈ handle_list_tools → a ∈ td.required → args a = none →
       (handle_call_tool env st td.name args).2 = [keyErrText td.name a])
    ∧ (∀ (env : Env) (st : Option Analyzer) (args : List Char → Option (List Char))
         (name : List Char),
         (∀ td ∈ handle_list_tools, td.name ≠ name) →
         (handle_call_tool env st name args).2 = [unknownToolText name])
    ∧ (∀ (env : Env) (st : Option Analyzer) (args : List Char → Option (List Char))
         (code : List Char),
         args (("verilog_code").toList) = some code →
         (handle_call_tool env st (("extract_ports").toList) args).2
           = [("Extracted ports from Verilog code:\n").toList
              ++ portsText3 (extract_ports code)]) := by
  refine ⟨?_, ?_, ?_⟩
  · intro env st args td a hmem hreq hargs
    simp only [handle_list_tools, List.mem_cons, List.not_mem_nil, or_false] at hmem
    rcases hmem with rfl | rfl | rfl | rfl | rfl | rfl | rfl | rfl | rfl | rfl
    all_goals simp only [ToolDecl.required] at hreq
    case _ => simp at hreq
    case _ =>
      simp only [List.mem_singleton] at hreq
      subst hreq
      exact loadBranch_keyerr env _ args hargs
    case _ => simp at hreq
    case _ =>
      simp only [List.mem_singleton] at hreq
      subst hreq
      exact parseBranch_keyerr env _ args hargs
    case _ =>
      simp only [List.mem_singleton] at hreq
      subst hreq
      exact extractBranch_keyerr _ args hargs
    case _ =>
      simp only [List.mem_singleton] at hreq
      subst hreq
      exact analyzeOneBranch_keyerr env _ args hargs
    case _ => simp at hreq
    case _ => simp at hreq
    case _ =>
      simp only [List.mem_singleton] at hreq
      subst hreq
      exact runBranch_keyerr env _ args hargs
    case _ =>
      simp only [List.mem_singleton] at hreq
      subst hreq
      exact detailsBranch_keyerr _ args hargs
  · intro env st args name h
    have h1 := h { name := ("initialize_analyzer").toList, required := [] } (by decide)
    have h2 := h { name := ("load_verilog_files").toList,
                   required := [("input_dir").toList] } (by decide)
    have h3 := h { name := ("get_loaded_modules").toList, required := [] } (by decide)
    have h4 := h { name := ("parse_verilog_file").toList,
                   required := [("file_path").toList] } (by decide)
    have h5 := h { name := ("extract_ports").toList,
                   required := [("verilog_code").toList] } (by decide)
    have h6 := h { name := ("analyze_single_module").toList,
                   required := [("module_name").toList] } (by decide)
    have h7 := h { name := ("analyze_all_modules").toList, required := [] } (by decide)
    have h8 := h { name := ("generate_latex_document").toList, required := [] } (by decide)
    have h9 := h { name := ("run_complete_analysis").toList,
                   required := [("input_dir").toList] } (by decide)
    have h10 := h { name := ("get_module_details").toList,
                    required := [("module_name").toList] } (by decide)
    simp only [handle_call_tool]
    rw [if_neg (fun hc => h1 hc.symm), if_neg (fun hc => h2 hc.symm),
        if_neg (fun hc => h3 hc.symm), if_neg (fun hc => h4 hc.symm),
        if_neg (fun hc => h5 hc.symm), if_neg (fun hc => h6 hc.symm),
        if_neg (fun hc => h7 hc.symm), if_neg (fun hc => h8 hc.symm),
        if_neg (fun hc => h9 hc.symm), if_neg (fun hc => h10 hc.symm)]
  · intro env st args code hargs
    have hd : handle_call_tool env st (("extract_ports").toList) args
        = extractBranch (st.getD (mkAnalyzer env.config)) args := rfl
    rw [hd]
    unfold extractBranch
    rw [hargs]

/-- Witness for C9: a call missing its required argument, a call to an
unknown operation, and a subsequent valid `extract_ports` call served from
the state the failed call left behind. -/
theorem spec_C9_tool_errors_witness :
    ({ name := ("load_verilog_files").toList, required := [("input_dir").toList] } : ToolDecl)
      ∈ handle_list_tools
    ∧ (("input_dir").toList)
        ∈ ({ name := ("load_verilog_files").toList,
             required := [("input_dir").toList] } : ToolDecl).required
    ∧ ((fun _ => (none : Option (List Char))) (("input_dir").toList) = none)
    ∧ (handle_call_tool envW none (("load_verilog_files").toList) (fun _ => none)).2
        = [keyErrText (("load_verilog_files").toList) (("input_dir").toList)]
    ∧ (∀ td ∈ handle_list_tools, td.name ≠ ("bogus_tool").toList)
    ∧ (handle_call_tool envW none (("bogus_tool").toList) (fun _ => none)).2
        = [unknownToolText (("bogus_tool").toList)]
    ∧ ((fun k => if k = ("verilog_code").toList then some codeAdderW else none)
         (("verilog_code").toList) = some codeAdderW)
    ∧ (handle_call_tool envW
         ((handle_call_tool envW none (("load_verilog_files").toList) (fun _ => none)).1)
         (("extract_ports").toList)
         (fun k => if k = ("verilog_code").toList then some codeAdderW else none)).2
        = [("Extracted ports from Verilog code:\n").toList
           ++ portsText3 (extract_ports codeAdderW)] :=
  ⟨by decide, by decide, rfl,
   spec_C9_tool_errors.1 envW none (fun _ => none)
     { name := ("load_verilog_files").toList, required := [("input_dir").toList] }
     (("input_dir").toList) (by decide) (by decide) rfl,
   by decide,
   spec_C9_tool_errors.2.1 envW none (fun _ => none) (("bogus_tool").toList) (by decide),
   rfl,
   spec_C9_tool_errors.2.2 envW
     ((handle_call_tool envW none (("load_verilog_files").toList) (fun _ => none)).1)
     (fun k => if k = ("verilog_code").toList then some codeAdderW else none)
     codeAdderW rfl⟩

/-- C10: when `parse_verilog_file` is invoked on an existing file whose text
has no match of the module-keyword pattern while the collection is
non-empty, the response is the success message describing the last
previously loaded module (a record unrelated to the given file); the failure
message is returned exactly when the collection is empty after the
attempt. -/
theorem spec_C10_parse_reports_last (env : Env) (an : Analyzer)
    (args : List Char → Option (List Char)) (path code : List Char)
    (hargs : args (("file_path").toList) = some path)
    (hfs : env.fs path = some code)
    (hnomod : searchModule code = none) :
    (∀ m, an.modules.getLast? = some m →
       (handle_call_tool env (some an) (("parse_verilog_file").toList) args).2
         = [parsedOkText path m])
    ∧ (an.modules = [] →
       (handle_call_tool env (some an) (("parse_verilog_file").toList) args).2
         = [parseFailText path]) := by
  have hd : handle_call_tool env (some an) (("parse_verilog_file").toList) args
      = parseBranch env an args := rfl
  have hparse : parse_verilog_file env.fs an.modules path = an.modules := by
    unfold parse_verilog_file
    rw [hfs]
    simp [hnomod]
  constructor
  · intro m hm
    rw [hd]
    unfold parseBranch
    rw [hargs]
    simp [hfs, hparse, hm]
  · intro hemp
    rw [hd]
    unfold parseBranch
    rw [hargs]
    simp only [hfs]
    simp [hparse]
    simp [hemp]

/-- Witness for C10: parsing a module-free file while one unrelated module
is loaded yields the success message describing that unrelated module. -/
theorem spec_C10_parse_reports_last_witness :
    ((fun k => if k = ("file_path").toList then some (("dir/empty.v").toList) else none)
       (("file_path").toList) = some (("dir/empty.v").toList))
    ∧ envW.fs (("dir/empty.v").toList) = some codeEmptyW
    ∧ searchModule codeEmptyW = none
    ∧ ({ config := cfgW, modules := [moduleW] } : Analyzer).modules.getLast? = some moduleW
    ∧ (handle_call_tool envW (some { config := cfgW, modules := [moduleW] })
         (("parse_verilog_file").toList)
         (fun k => if k = ("file_path").toList then some (("dir/empty.v").toList) else none)).2
        = [parsedOkText (("dir/empty.v").toList) moduleW] :=
  ⟨rfl, rfl, rfl, rfl,
   (spec_C10_parse_reports_last envW { config := cfgW, modules := [moduleW] }
      (fun k => if k = ("file_path").toList then some (("dir/empty.v").toList) else none)
      (("dir/empty.v").toList) codeEmptyW rfl rfl rfl).1 moduleW rfl⟩
